import Mathlib

/-!
A shallow embedding of the File-Converter pipeline (`src/app.py`) and proofs
about its behaviour.  The program converts headerless CSV partition files into
JSON-Lines files, driven by a `schemas.json` document that assigns column
names and their order per dataset.

String manipulation is modelled over `List Char` with structurally recursive
functions so that every definition evaluates inside the kernel.
-/

namespace FileConverter

instance {ε α : Type} [DecidableEq ε] [DecidableEq α] : DecidableEq (Except ε α) := fun x y =>
  match x, y with
  | Except.error a, Except.error b =>
    if h : a = b then isTrue (by rw [h]) else
      isFalse (fun hh => h (Except.error.inj hh))
  | Except.error _, Except.ok _ => isFalse (fun hh => Except.noConfusion hh)
  | Except.ok _, Except.error _ => isFalse (fun hh => Except.noConfusion hh)
  | Except.ok a, Except.ok b =>
    if h : a = b then isTrue (by rw [h]) else
      isFalse (fun hh => h (Except.ok.inj hh))

/-! ### Character-level string helpers (models of the os.path functions used by app.py) -/

/-- Split a character list on a separator character; like Python `str.split(sep)`. -/
def splitOnChar (sep : Char) : List Char → List (List Char)
  | [] => [[]]
  | c :: cs =>
    let r := splitOnChar sep cs
    if c == sep then [] :: r
    else
      match r with
      | [] => [[c]]
      | h :: t => (c :: h) :: t

/-- Model of `os.path.basename` restricted to '/' separated paths: the part after the last '/'. -/
def basename (p : String) : String :=
  String.mk ((splitOnChar '/' p.data).getLastD [])

/-- Root part of `os.path.splitext` on a bare file name: everything before the
last '.', where dots leading the name do not count as an extension separator. -/
def splitextRootChars (cs : List Char) : List Char :=
  let lead := cs.takeWhile (fun c => c == '.')
  let rest := cs.drop lead.length
  if rest.contains '.' then
    lead ++ (rest.reverse.drop ((rest.reverse.takeWhile (fun c => c != '.')).length + 1)).reverse
  else cs

/-- Model of `os.path.splitext(...)[0]`. -/
def splitextRoot (s : String) : String :=
  String.mk (splitextRootChars s.data)

/-- Model of `os.path.join` for two components. -/
def joinPath (a b : String) : String :=
  if b.data.headD ' ' == '/' then b
  else if a.data.isEmpty then b
  else if a.data.getLastD ' ' == '/' then a ++ b
  else a ++ "/" ++ b

/-! ### The pandas model: cells, dtype inference and JSON rendering

`read_csv` (app.py 221-246) delegates to `pd.read_csv(file_path, names=column_names)`
and `to_json` (app.py 248-282) to `df.to_json(..., orient='records', lines=True)`.
The observable behaviour of those two pandas calls is part of the program's
semantics, so the relevant fragment is embedded here: per-column dtype
inference (int64 / float64 / object), NaN padding of short rows, the implicit
index formed from excess leading columns, and JSON-Lines rendering. -/

/-- One cell of a parsed DataFrame: a raw text field or a missing value (NaN). -/
inductive Cell where
  | raw (s : String)
  | nan
deriving Repr, DecidableEq

/-- Nonempty and all decimal digits. -/
def digitsNonempty (cs : List Char) : Bool :=
  !cs.isEmpty && cs.all (fun c => c.isDigit)

/-- Does the text parse as an integer literal (optional minus sign, digits)? -/
def isIntLit (s : String) : Bool :=
  match s.data with
  | '-' :: rest => digitsNonempty rest
  | cs => digitsNonempty cs

/-- Does the text parse as a simple decimal literal `[-]digits.digits`? -/
def isFloatLit (s : String) : Bool :=
  let cs :=
    match s.data with
    | '-' :: rest => rest
    | cs => cs
  let ip := cs.takeWhile (fun c => c.isDigit)
  match cs.drop ip.length with
  | '.' :: fp => !ip.isEmpty && digitsNonempty fp
  | _ => false

/-- The pandas dtypes that can arise for a column of raw text fields. -/
inductive Dtype where
  | intCol
  | floatCol
  | objectCol
deriving Repr, DecidableEq

def cellIsNan : Cell → Bool
  | .nan => true
  | .raw _ => false

def cellRaws (cells : List Cell) : List String :=
  cells.filterMap (fun c =>
    match c with
    | .raw s => some s
    | .nan => none)

/-- pandas dtype inference for one column: all-integer text without missing
values gives int64; numeric text (or missing values) gives float64; anything
else is object. -/
def colDtype (cells : List Cell) : Dtype :=
  let raws := cellRaws cells
  if !raws.isEmpty && raws.all isIntLit && !(cells.any cellIsNan) then .intCol
  else if raws.all (fun s => isIntLit s || isFloatLit s) then .floatCol
  else .objectCol

def natReprAux : Nat → Nat → List Char
  | 0, _ => []
  | fuel + 1, n =>
    if n < 10 then [Char.ofNat (48 + n)]
    else natReprAux fuel (n / 10) ++ [Char.ofNat (48 + n % 10)]

/-- Decimal rendering of a natural number. -/
def natRepr (n : Nat) : String :=
  String.mk (natReprAux (n + 1) n)

def intRepr : Int → String
  | Int.ofNat n => natRepr n
  | Int.negSucc n => "-" ++ natRepr (n + 1)

def digitsToNat (cs : List Char) : Nat :=
  cs.foldl (fun n c => n * 10 + (c.toNat - 48)) 0

/-- Numeric value of an integer literal. -/
def parseIntLit (s : String) : Int :=
  match s.data with
  | '-' :: rest => -(digitsToNat rest : Int)
  | cs => (digitsToNat cs : Int)

/-- How an int64 cell prints in df.to_json: the canonical decimal form. -/
def renderIntLit (s : String) : String :=
  intRepr (parseIntLit s)

/-- How a float64 cell prints in df.to_json: integer text gains ".0", decimal
text keeps its digits with trailing fractional zeros trimmed. -/
def renderFloatLit (s : String) : String :=
  if isIntLit s then renderIntLit s ++ ".0"
  else
    let cs := s.data
    let neg := cs.headD ' ' == '-'
    let t := if neg then cs.drop 1 else cs
    let ip := t.takeWhile (fun c => c.isDigit)
    let fp := t.drop (ip.length + 1)
    let fp2 := (fp.reverse.dropWhile (fun c => c == '0')).reverse
    (if neg then "-" else "") ++ natRepr (digitsToNat ip) ++ "." ++
      (if fp2.isEmpty then "0" else String.mk fp2)

def jsonEscapeChars : List Char → List Char
  | [] => []
  | c :: cs =>
    if c == '"' then '\\' :: '"' :: jsonEscapeChars cs
    else if c == '\\' then '\\' :: '\\' :: jsonEscapeChars cs
    else c :: jsonEscapeChars cs

/-- JSON string literal for a raw text field. -/
def jsonQuote (s : String) : String :=
  String.mk ('"' :: (jsonEscapeChars s.data ++ ['"']))

/-- JSON token for one cell under a column dtype; missing values print as null. -/
def renderCell : Dtype → Cell → String
  | _, .nan => "null"
  | .intCol, .raw s => renderIntLit s
  | .floatCol, .raw s => renderFloatLit s
  | .objectCol, .raw s => jsonQuote s

/-- A parsed DataFrame: the column names and the data rows (any implicit index
formed from excess leading columns has already been dropped, as df.to_json
with orient='records' omits the index). -/
structure DataFrame where
  names : List String
  rows : List (List Cell)
deriving Repr, DecidableEq

/-- A row of raw fields padded with NaN cells up to the parse width. -/
def padRow (width : Nat) (r : List String) : List Cell :=
  r.map Cell.raw ++ List.replicate (width - r.length) Cell.nan

/-- The column count pandas settles on: fixed by the first row's field count
and the name count. -/
def parseWidth (rows : List (List String)) (names : List String) : Nat :=
  max (rows.headD []).length names.length

/-- Model of `pd.read_csv(file_path, names=column_names)` (app.py 237-240) on
the file's rows of raw fields.  Rows wider than the parse width raise
ParserError; shorter rows are NaN-padded at the end; when the width exceeds
the name count the excess leading columns become the implicit index and are
dropped from the records. -/
def read_csv (rows : List (List String)) (names : List String) : Except String DataFrame :=
  if rows.any (fun r => parseWidth rows names < r.length) then Except.error "ParserError"
  else
    Except.ok ⟨names, rows.map (fun r =>
      (padRow (parseWidth rows names) r).drop (parseWidth rows names - names.length))⟩

def colCells (df : DataFrame) (j : Nat) : List Cell :=
  df.rows.map (fun r => r.getD j Cell.nan)

def dfDtypes (df : DataFrame) : List Dtype :=
  (List.range df.names.length).map (fun j => colDtype (colCells df j))

def intercalateComma : List String → String
  | [] => ""
  | [s] => s
  | s :: rest => s ++ "," ++ intercalateComma rest

/-- One JSON-Lines record: field order follows the column name sequence. -/
def renderRow (names : List String) (dtypes : List Dtype) (cells : List Cell) : String :=
  "\x7b" ++
    intercalateComma
      ((names.zip (dtypes.zip cells)).map (fun p => jsonQuote p.1 ++ ":" ++ renderCell p.2.1 p.2.2))
    ++ "\x7d"

/-- Model of `df.to_json(..., orient='records', lines=True)`: one JSON object per row. -/
def dfToJsonLines (df : DataFrame) : List String :=
  df.rows.map (renderRow df.names (dfDtypes df))

/-- The observable effect of one to_json call: the directory it creates and
the file it writes (path and JSON lines). -/
structure WriteEffect where
  mkdirDir : String
  outPath : String
  lines : List String
deriving Repr, DecidableEq

/-- Model of `to_json` (app.py 268-275).  `mkdirDir` is the created directory
`os.path.join(tgt_base_dir, ds_name)`; `outPath` is the path actually handed
to `df.to_json`, which in the source is only the base file name with a .json
extension (line 273 passes `json_file_name`, not a path under `json_dir`), so
the write resolves against the process working directory. -/
def to_json (df : DataFrame) (tgt_base_dir csv_file_path ds_name : String) : WriteEffect :=
  ⟨joinPath tgt_base_dir ds_name,
   splitextRoot (basename csv_file_path) ++ ".json",
   dfToJsonLines df⟩

/-! ### Schema model and column resolution (read_schema, get_column_names) -/

/-- One column descriptor from schemas.json.  The two keys the program reads
may each be absent (a missing key raises KeyError in Python). -/
structure ColEntry where
  column_name : Option String
  column_position : Option Int
deriving Repr, DecidableEq

/-- The parsed schemas.json document: dataset name to its column descriptors. -/
abbrev Schema := List (String × List ColEntry)

/-- The value Python's sort key `lambda col: col[sorting_key]` extracts. -/
def posKey (e : ColEntry) : Int :=
  e.column_position.getD 0

/-- Insert an entry into an already sorted list, before the first entry of
greater-or-equal key, as a stable sort does with later-arriving elements. -/
def insertCol (a : ColEntry) : List ColEntry → List ColEntry
  | [] => [a]
  | b :: bs => if posKey a ≤ posKey b then a :: b :: bs else b :: insertCol a bs

/-- Model of Python `sorted(schema[table], key=lambda col: col[sorting_key])`
with the default key column_position: a stable sort, entries with equal
position keep their relative schema order. -/
def sortByPos : List ColEntry → List ColEntry
  | [] => []
  | a :: as => insertCol a (sortByPos as)

/-- Model of `get_column_names` (app.py 186-219): looks the table up in the
schema (KeyError when absent), sorts its entries stably by column_position
(KeyError when some entry lacks the key), and extracts the column_name of
each sorted entry (KeyError when absent). -/
def get_column_names (schema : Schema) (table : String) : Except String (List String) :=
  match schema.lookup table with
  | none => Except.error "KeyError"
  | some entries =>
    if entries.all (fun e => e.column_position.isSome) then
      if (sortByPos entries).all (fun e => e.column_name.isSome) then
        Except.ok ((sortByPos entries).map (fun e => e.column_name.getD ""))
      else Except.error "KeyError"
    else Except.error "KeyError"

/-! ### Filesystem and run model (read_schema, process_files, convert_file, main) -/

/-- One file in a dataset directory under the source root, with its parsed
CSV rows. -/
structure SrcFile where
  ds : String
  fname : String
  rows : List (List String)
deriving Repr, DecidableEq

/-- The source tree: the files under `sourceRoot/<ds>/<fname>` and the
schemas.json document (none models an absent file). -/
structure FS where
  files : List SrcFile
  schema : Option Schema
deriving Repr, DecidableEq

/-- Does the file name match the glob pattern `part-*`? -/
def isPartFile (f : String) : Bool :=
  match f.data with
  | 'p' :: 'a' :: 'r' :: 't' :: '-' :: _ => true
  | _ => false

/-- Model of the dataset discovery of main (app.py 83-87): glob over
`src_base_dir/*/part-*` yields one path per matching file, and the list
comprehension maps each path to its parent directory name — one entry per
matching file, with no deduplication. -/
def discover_ds_names (fs : FS) : List String :=
  (fs.files.filter (fun f => isPartFile f.fname)).map (fun f => f.ds)

/-- Model of `read_schema` (app.py 157-184): FileNotFoundError when
schemas.json is absent, otherwise the parsed document. -/
def read_schema (fs : FS) : Except String Schema :=
  match fs.schema with
  | none => Except.error "FileNotFoundError: schemas.json"
  | some s => Except.ok s

/-- A Python generator object: a suspended computation whose body only runs
when the generator is iterated. -/
structure Generator (α : Type) where
  force : Unit → Except String (List α)

/-- Model of `process_files` (app.py 130-155).  Because the Python function is
a generator, calling it merely builds the suspended computation; the glob and
the ValueError for an empty match set happen only when the result is first
iterated (forced). -/
def process_files {α : Type} (files : List α) : Generator α :=
  ⟨fun _ => if files.isEmpty then Except.error "ValueError" else Except.ok files⟩

/-- The files of one dataset directory that match `part-*`. -/
def partsFor (fs : FS) (ds : String) : List SrcFile :=
  fs.files.filter (fun f => f.ds == ds && isPartFile f.fname)

/-- The glob path of a source file, `src_base_dir/ds/fname`. -/
def srcFilePath (src : String) (f : SrcFile) : String :=
  src ++ "/" ++ f.ds ++ "/" ++ f.fname

/-- Model of `convert_file` (app.py 99-128): read the schema, resolve the
column names, iterate the partition generator, and for each partition parse
the CSV and write the JSON file.  Any raised error is re-raised by the
enclosing except block.  (The write effects of a dataset are reported only
when the whole dataset converts; no claim below concerns a partition failing
after an earlier partition of the same dataset was written.) -/
def convert_file (src tgt : String) (fs : FS) (ds : String) : Except String (List WriteEffect) := do
  let schema ← read_schema fs
  let cols ← get_column_names schema ds
  let parts ← (process_files (partsFor fs ds)).force ()
  parts.mapM (fun f => do
    let df ← read_csv f.rows cols
    pure (to_json df tgt (srcFilePath src f) ds))

/-- The ds_name argument of main: absent, a single string, or a list of strings. -/
inductive DsArg where
  | noArg
  | str (s : String)
  | list (l : List String)
deriving Repr, DecidableEq

/-- Python truthiness test `not ds_name`: None, "" and [] are falsy. -/
def dsArgFalsy : DsArg → Bool
  | .noArg => true
  | .str s => s == ""
  | .list l => l.isEmpty

/-- Iterating the argument as Python's for loop does: a string yields its
characters as length-1 strings; a list yields its elements. -/
def dsArgIter : DsArg → List String
  | .noArg => []
  | .str s => s.data.map (fun c => String.mk [c])
  | .list l => l

/-- Model of main's dataset-name resolution (app.py 80-90): a falsy argument
triggers discovery (FileNotFoundError when the glob matches nothing),
otherwise the argument itself is iterated. -/
def resolveDsNames (arg : DsArg) (fs : FS) : Except String (List String) :=
  if dsArgFalsy arg then
    if (discover_ds_names fs).isEmpty then Except.error "FileNotFoundError: no part files"
    else Except.ok (discover_ds_names fs)
  else Except.ok (dsArgIter arg)

/-- What a run accumulates: how many times read_schema was invoked and the
write effects of the datasets converted so far. -/
structure RunLog where
  schemaReads : Nat
  writes : List WriteEffect
deriving Repr, DecidableEq

/-- The per-dataset loop of main (app.py 92-93): datasets are processed in
order; convert_file invokes read_schema first thing on every call; the first
raised exception aborts the loop (main's except re-raises it). -/
def mainGo (src tgt : String) (fs : FS) : List String → RunLog → RunLog × Option String
  | [], log => (log, none)
  | ds :: rest, log =>
    match convert_file src tgt fs ds with
    | Except.error e => (⟨log.schemaReads + 1, log.writes⟩, some e)
    | Except.ok ws => mainGo src tgt fs rest ⟨log.schemaReads + 1, log.writes ++ ws⟩

/-- Model of `main` (app.py 47-97): resolve the dataset names, then run the
per-dataset loop.  The pair is the accumulated run log and the error the run
aborted with, if any. -/
def mainRun (src tgt : String) (fs : FS) (arg : DsArg) : RunLog × Option String :=
  match resolveDsNames arg fs with
  | Except.error e => (⟨0, []⟩, some e)
  | Except.ok names => mainGo src tgt fs names ⟨0, []⟩

/-! ### The exception behaviour of to_json (app.py 276-282) -/

/-- The I/O outcome of the underlying df.to_json write. -/
inductive WriteOutcome where
  | ok
  | ioError
  | otherError
deriving Repr, DecidableEq

/-- What one partition's handling in convert_file (app.py 122-125) ends as. -/
inductive PartitionOutcome where
  | loggedSuccess
  | loggedError
  | raised (e : String)
deriving Repr, DecidableEq

/-- Model of to_json's control flow (app.py 268-282) as a function of the I/O
outcome of the write: success returns True; an IOError is logged and
re-raised (line 278); any other exception is logged and re-raised (line 282).
No path returns False. -/
def to_json_try : WriteOutcome → Except String Bool
  | .ok => Except.ok true
  | .ioError => Except.error "IOError"
  | .otherError => Except.error "Exception"

/-- Model of one partition's handling in convert_file (app.py 120-128): a True
return from to_json logs success, a False return would log an error and
continue, and a raised exception is re-raised by the enclosing except block
(aborting the loop and the run). -/
def convert_file_partition (oc : WriteOutcome) : PartitionOutcome :=
  match to_json_try oc with
  | Except.error e => .raised e
  | Except.ok true => .loggedSuccess
  | Except.ok false => .loggedError

def fsC2 : FS :=
  ⟨[⟨"sales", "part-001", [["1", "Widget", "9.99"], ["2", "Gadget", "19.99"]]⟩],
   some [("sales", [⟨some "id", some 0⟩, ⟨some "name", some 1⟩, ⟨some "price", some 2⟩])]⟩

/-! ### Theorems -/

/-- C1: to_json creates the directory targetRoot/datasetName, but the path it
actually writes to is only the partition's base name with a .json extension,
resolved against the process working directory — not the claimed
targetRoot/datasetName/&lt;base&gt;.json.  Evaluated at a concrete input. -/
theorem c1_to_json_writes_outside_target_root :
    (to_json ⟨["id"], []⟩ "/data/target" "/data/source/sales/part-001" "sales").mkdirDir
        = "/data/target/sales" ∧
    (to_json ⟨["id"], []⟩ "/data/target" "/data/source/sales/part-001" "sales").outPath
        = "part-001.json" ∧
    (to_json ⟨["id"], []⟩ "/data/target" "/data/source/sales/part-001" "sales").outPath
        ≠ "/data/target/sales/part-001.json" := by
  refine ⟨rfl, rfl, by decide⟩

/-- C2: at the spec's end-to-end scenario the run does discover `sales` and
resolve the columns ["id", "name", "price"], but the produced file is written
at the bare path "part-001.json" (the working directory), not at
"/tgt/sales/part-001.json", and its two lines carry numeric values
(pandas dtype inference), not the claimed raw text strings. -/
theorem c2_end_to_end_scenario :
    resolveDsNames DsArg.noArg fsC2 = Except.ok ["sales"] ∧
    get_column_names
        [("sales", [⟨some "id", some 0⟩, ⟨some "name", some 1⟩, ⟨some "price", some 2⟩])]
        "sales" = Except.ok ["id", "name", "price"] ∧
    mainRun "/src" "/tgt" fsC2 DsArg.noArg =
      (⟨1, [⟨"/tgt/sales", "part-001.json",
        ["\x7b\"id\":1,\"name\":\"Widget\",\"price\":9.99\x7d",
         "\x7b\"id\":2,\"name\":\"Gadget\",\"price\":19.99\x7d"]⟩]⟩, none) ∧
    (mainRun "/src" "/tgt" fsC2 DsArg.noArg).1.writes.map WriteEffect.outPath
        ≠ ["/tgt/sales/part-001.json"] ∧
    (mainRun "/src" "/tgt" fsC2 DsArg.noArg).1.writes.map WriteEffect.lines
        ≠ [["\x7b\"id\":\"1\",\"name\":\"Widget\",\"price\":\"9.99\"\x7d",
            "\x7b\"id\":\"2\",\"name\":\"Gadget\",\"price\":\"19.99\"\x7d"]] := by
  refine ⟨rfl, rfl, rfl, by decide, by decide⟩

/-- C3 counterexample: on an I/O failure during the write, to_json does not
return success=false — it re-raises the IOError (app.py line 278), so the
partition's handling in convert_file ends in a raised exception, not in the
logged-error-and-continue branch the claim describes. -/
theorem c3_io_error_raised_not_returned :
    convert_file_partition WriteOutcome.ioError = PartitionOutcome.raised "IOError" ∧
    convert_file_partition WriteOutcome.ioError ≠ PartitionOutcome.loggedError := by
  refine ⟨rfl, by decide⟩

/-- C3 amended: to_json returns a value only on success (and that value is
always True); an IOError is re-raised, so the orchestration's success=false
logging branch is unreachable for every write outcome, and a write failure
propagates and aborts the run instead of being skipped. -/
theorem c3_amended_write_errors_propagate :
    (∀ oc b, to_json_try oc = Except.ok b → b = true) ∧
    to_json_try WriteOutcome.ioError = Except.error "IOError" ∧
    (∀ oc, convert_file_partition oc ≠ PartitionOutcome.loggedError) := by
  refine ⟨?_, rfl, ?_⟩
  · intro oc b h
    cases oc
    · simpa using (Except.ok.inj h).symm
    · simp [to_json_try] at h
    · simp [to_json_try] at h
  · intro oc
    cases oc <;> simp [convert_file_partition, to_json_try]

/-- C3 amended, witness: the amended theorem applied at concrete outcomes. -/
theorem c3_amended_witness :
    true = true ∧ convert_file_partition WriteOutcome.ok ≠ PartitionOutcome.loggedError :=
  ⟨c3_amended_write_errors_propagate.1 WriteOutcome.ok true rfl,
   c3_amended_write_errors_propagate.2.2 WriteOutcome.ok⟩

/-- C4 counterexample: a row with 4 fields against a 3-name sequence does not
keep the first 3 fields — pandas turns the excess leading column into the
implicit index, so the record binds the names to the last 3 fields. -/
theorem c4_excess_fields_drop_leading_not_trailing :
    read_csv [["a", "b", "c", "d"]] ["x", "y", "z"] =
      Except.ok ⟨["x", "y", "z"], [[Cell.raw "b", Cell.raw "c", Cell.raw "d"]]⟩ ∧
    read_csv [["a", "b", "c", "d"]] ["x", "y", "z"] ≠
      Except.ok ⟨["x", "y", "z"], [[Cell.raw "a", Cell.raw "b", Cell.raw "c"]]⟩ := by
  refine ⟨rfl, by decide⟩

/-- C4 amended: rows with at most as many fields as names get the missing
trailing fields as null (NaN) exactly as claimed; but a file whose rows have
uniformly m ≥ n fields binds the n names to the LAST n fields of each row,
dropping the excess m - n LEADING fields (they become the implicit index). -/
theorem c4_amended_field_count_policy (rows : List (List String)) (names : List String) :
    ((∀ r ∈ rows, r.length ≤ names.length) →
      read_csv rows names = Except.ok ⟨names, rows.map (padRow names.length)⟩) ∧
    (∀ m, names.length ≤ m → (∀ r ∈ rows, r.length = m) →
      read_csv rows names =
        Except.ok ⟨names, rows.map (fun r => (r.drop (m - names.length)).map Cell.raw)⟩) := by
  constructor
  · intro hle
    have hw : parseWidth rows names = names.length := by
      unfold parseWidth
      cases rows with
      | nil => simp
      | cons r rs => exact Nat.max_eq_right (hle r (List.mem_cons_self r rs))
    have hany : rows.any (fun r => parseWidth rows names < r.length) = false := by
      rw [List.any_eq_false]
      intro r hr
      rw [hw]
      simpa using hle r hr
    unfold read_csv
    rw [if_neg (by simp [hany]), hw]
    refine congrArg Except.ok (congrArg (DataFrame.mk names) (List.map_congr_left ?_))
    intro x hx
    rw [Nat.sub_self, List.drop_zero]
  · intro m hnm hm
    cases rows with
    | nil =>
      unfold read_csv
      simp
    | cons r rs =>
      have hw : parseWidth (r :: rs) names = m := by
        unfold parseWidth
        have := hm r (List.mem_cons_self r rs)
        simp only [List.headD_cons, this]
        omega
      have hany : (r :: rs).any (fun x => parseWidth (r :: rs) names < x.length) = false := by
        rw [List.any_eq_false]
        intro x hx
        rw [hw, hm x hx]
        simp
      unfold read_csv
      rw [if_neg (by simp [hany]), hw]
      refine congrArg Except.ok (congrArg (DataFrame.mk names) (List.map_congr_left ?_))
      intro x hx
      have hxl : x.length = m := hm x hx
      rw [padRow, hxl, Nat.sub_self, List.replicate_zero, List.append_nil, ← List.map_drop]

/-- C4 amended, witness: both halves of the amended policy evaluated at
concrete rows. -/
theorem c4_amended_witness :
    read_csv [["a", "b"]] ["x", "y", "z"] =
      Except.ok ⟨["x", "y", "z"], [[Cell.raw "a", Cell.raw "b", Cell.nan]]⟩ ∧
    read_csv [["a", "b", "c", "d"]] ["x", "y"] =
      Except.ok ⟨["x", "y"], [[Cell.raw "c", Cell.raw "d"]]⟩ := by
  constructor
  · exact (c4_amended_field_count_policy [["a", "b"]] ["x", "y", "z"]).1 (by decide)
  · exact (c4_amended_field_count_policy [["a", "b", "c", "d"]] ["x", "y"]).2 4
      (by decide) (by decide)

def fsC5 : FS :=
  ⟨[⟨"sales", "part-001", []⟩, ⟨"sales", "part-002", []⟩], none⟩

/-- C5 counterexample: a dataset directory holding two part-* files appears
twice in the discovered dataset list — main's list comprehension over the
glob result does not deduplicate. -/
theorem c5_discovery_not_deduplicated :
    discover_ds_names fsC5 = ["sales", "sales"] ∧
    (discover_ds_names fsC5).count "sales" ≠ 1 := by
  refine ⟨rfl, by decide⟩

/-- C5 amended: discovery returns one entry per matching partition file, so a
dataset with k matching partitions appears k times in the list (and is then
processed k times by the per-dataset loop), rather than exactly once. -/
theorem c5_amended_one_entry_per_partition (fs : FS) (d : String) :
    (discover_ds_names fs).count d =
      (fs.files.filter (fun f => f.ds == d && isPartFile f.fname)).length := by
  obtain ⟨files, sch⟩ := fs
  induction files with
  | nil => rfl
  | cons f rest ih =>
    by_cases hp : isPartFile f.fname
    · by_cases hd : f.ds = d
      · simp_all [discover_ds_names, List.filter_cons, List.count_cons]
      · simp_all [discover_ds_names, List.filter_cons, List.count_cons]
    · simp_all [discover_ds_names, List.filter_cons]

/-! ### Properties of the stable insertion sort used for column resolution -/

theorem length_insertCol (a : ColEntry) (l : List ColEntry) :
    (insertCol a l).length = l.length + 1 := by
  induction l with
  | nil => rfl
  | cons b bs ih =>
    by_cases h : posKey a ≤ posKey b
    · simp [insertCol, h]
    · simp [insertCol, h, ih]

theorem length_sortByPos (l : List ColEntry) : (sortByPos l).length = l.length := by
  induction l with
  | nil => rfl
  | cons a as ih => simp [sortByPos, length_insertCol, ih]

theorem mem_insertCol (x a : ColEntry) (l : List ColEntry) :
    x ∈ insertCol a l ↔ x = a ∨ x ∈ l := by
  induction l with
  | nil => simp [insertCol]
  | cons b bs ih =>
    by_cases h : posKey a ≤ posKey b
    · simp [insertCol, h]
    · simp [insertCol, h, ih]
      tauto

theorem mem_sortByPos (x : ColEntry) (l : List ColEntry) :
    x ∈ sortByPos l ↔ x ∈ l := by
  induction l with
  | nil => simp [sortByPos]
  | cons a as ih => simp [sortByPos, mem_insertCol, ih]

theorem pairwise_insertCol (a : ColEntry) (l : List ColEntry)
    (hl : l.Pairwise (fun x y => posKey x ≤ posKey y)) :
    (insertCol a l).Pairwise (fun x y => posKey x ≤ posKey y) := by
  induction l with
  | nil => simp [insertCol]
  | cons b bs ih =>
    rcases List.pairwise_cons.mp hl with ⟨hb, hbs⟩
    by_cases h : posKey a ≤ posKey b
    · rw [insertCol, if_pos h]
      refine List.pairwise_cons.mpr ⟨?_, hl⟩
      intro y hy
      rcases List.mem_cons.mp hy with rfl | hy2
      · exact h
      · exact le_trans h (hb y hy2)
    · rw [insertCol, if_neg h]
      refine List.pairwise_cons.mpr ⟨?_, ih hbs⟩
      intro y hy
      rcases (mem_insertCol y a bs).mp hy with rfl | hy2
      · exact le_of_not_le h
      · exact hb y hy2

theorem sorted_sortByPos (l : List ColEntry) :
    (sortByPos l).Pairwise (fun x y => posKey x ≤ posKey y) := by
  induction l with
  | nil => simp [sortByPos]
  | cons a as ih => exact pairwise_insertCol a (sortByPos as) ih

theorem filter_insertCol (k : Int) (a : ColEntry) (l : List ColEntry) :
    (insertCol a l).filter (fun e => posKey e == k) =
      if posKey a == k then a :: l.filter (fun e => posKey e == k)
      else l.filter (fun e => posKey e == k) := by
  induction l with
  | nil =>
    by_cases hak : (posKey a == k) = true
    · simp [insertCol, hak]
    · simp [insertCol, hak]
  | cons b bs ih =>
    by_cases hab : posKey a ≤ posKey b
    · rw [insertCol, if_pos hab]
      by_cases hak : (posKey a == k) = true
      · simp [List.filter_cons, hak]
      · simp [List.filter_cons, hak]
    · rw [insertCol, if_neg hab]
      by_cases hak : (posKey a == k) = true
      · by_cases hbk : (posKey b == k) = true
        · exfalso
          have ha : posKey a = k := by simpa using hak
          have hb : posKey b = k := by simpa using hbk
          omega
        · simp [List.filter_cons, hak, hbk, ih]
      · by_cases hbk : (posKey b == k) = true
        · simp [List.filter_cons, hak, hbk, ih]
        · simp [List.filter_cons, hak, hbk, ih]

theorem filter_sortByPos (k : Int) (l : List ColEntry) :
    (sortByPos l).filter (fun e => posKey e == k) = l.filter (fun e => posKey e == k) := by
  induction l with
  | nil => rfl
  | cons a as ih =>
    rw [sortByPos, filter_insertCol, ih]
    by_cases hak : (posKey a == k) = true
    · simp [List.filter_cons, hak]
    · simp [List.filter_cons, hak]

/-! ### Remaining claim theorems -/

def fsC6 : FS :=
  ⟨[⟨"a", "part-1", [["1"]]⟩, ⟨"b", "part-1", [["2"]]⟩],
   some [("a", [⟨some "c", some 0⟩]), ("b", [⟨some "c", some 0⟩])]⟩

/-- C6 counterexample: a run over the two datasets a and b completes without
error and reads schemas.json twice — convert_file calls read_schema on every
dataset, so the document is not read exactly once per run. -/
theorem c6_schema_read_twice_in_one_run :
    (mainRun "/s" "/t" fsC6 (DsArg.list ["a", "b"])).2 = none ∧
    (mainRun "/s" "/t" fsC6 (DsArg.list ["a", "b"])).1.schemaReads = 2 ∧
    (mainRun "/s" "/t" fsC6 (DsArg.list ["a", "b"])).1.schemaReads ≠ 1 := by
  refine ⟨rfl, rfl, by decide⟩

/-- A completed per-dataset loop performs exactly one schema read per dataset. -/
theorem mainGo_schemaReads (src tgt : String) (fs : FS) :
    ∀ (ns : List String) (start log : RunLog),
      mainGo src tgt fs ns start = (log, none) →
      log.schemaReads = start.schemaReads + ns.length := by
  intro ns
  induction ns with
  | nil =>
    intro start log h
    simp only [mainGo] at h
    cases h
    simp
  | cons ds rest ih =>
    intro start log h
    simp only [mainGo] at h
    cases hcv : convert_file src tgt fs ds with
    | error e =>
      rw [hcv] at h
      simp at h
    | ok ws =>
      rw [hcv] at h
      have h2 : log.schemaReads = start.schemaReads + 1 + rest.length :=
        ih ⟨start.schemaReads + 1, start.writes ++ ws⟩ log h
      simp only [List.length_cons]
      omega

/-- C6 amended: schemas.json is read once per dataset processed, not once per
run — a run that completes over an explicit list of n dataset names performs
exactly n schema reads. -/
theorem c6_amended_schema_read_once_per_dataset (src tgt : String) (fs : FS)
    (names : List String) (log : RunLog)
    (hne : names ≠ [])
    (h : mainRun src tgt fs (DsArg.list names) = (log, none)) :
    log.schemaReads = names.length := by
  have hf : dsArgFalsy (DsArg.list names) = false := by
    cases names with
    | nil => exact absurd rfl hne
    | cons a as => rfl
  unfold mainRun resolveDsNames at h
  rw [hf] at h
  simp only [Bool.false_eq_true, if_false] at h
  have := mainGo_schemaReads src tgt fs names ⟨0, []⟩ log h
  simpa using this

/-- C6 amended, witness: the amended theorem applied to the two-dataset run. -/
theorem c6_amended_witness :
    (⟨2, [⟨"/t/a", "part-1.json", ["\x7b\"c\":1\x7d"]⟩,
          ⟨"/t/b", "part-1.json", ["\x7b\"c\":2\x7d"]⟩]⟩ : RunLog).schemaReads =
      (["a", "b"] : List String).length :=
  c6_amended_schema_read_once_per_dataset "/s" "/t" fsC6 ["a", "b"]
    ⟨2, [⟨"/t/a", "part-1.json", ["\x7b\"c\":1\x7d"]⟩,
         ⟨"/t/b", "part-1.json", ["\x7b\"c\":2\x7d"]⟩]⟩ (by decide) (by decide)

/-- A successfully resolved dataset list is never empty: discovery fails on an
empty match set, a falsy explicit argument falls back to discovery, and a
non-falsy string or list iterates to at least one name. -/
theorem resolveDsNames_ok_ne_nil (arg : DsArg) (fs : FS) (names : List String)
    (h : resolveDsNames arg fs = Except.ok names) : names ≠ [] := by
  unfold resolveDsNames at h
  by_cases hf : dsArgFalsy arg = true
  · rw [if_pos hf] at h
    by_cases he : (discover_ds_names fs).isEmpty = true
    · rw [if_pos he] at h
      exact absurd h (by simp)
    · rw [if_neg he] at h
      have hv := Except.ok.inj h
      subst hv
      intro hnil
      rw [hnil] at he
      exact he rfl
  · rw [if_neg hf] at h
    have hv := Except.ok.inj h
    subst hv
    cases arg with
    | noArg => exact absurd rfl hf
    | str s =>
      have hs : (s == "") = false := by
        cases hb : s == "" with
        | false => rfl
        | true => exact absurd hb hf
      have hd : s.data ≠ [] := by
        intro hnil
        have : s = "" := by
          have hrep : s = String.mk s.data := rfl
          rw [hrep, hnil]
        rw [this] at hs
        simp at hs
      intro hnil
      exact hd (List.map_eq_nil_iff.mp hnil)
    | list l =>
      intro hnil
      apply hf
      simp only [dsArgIter] at hnil
      simp [dsArgFalsy, hnil]

/-- C7: when schemas.json is absent and the dataset enumeration succeeds, the
run aborts with the schema-not-found error and its log holds zero writes —
convert_file reads the schema before touching any partition, and the first
dataset's failure aborts the whole run. -/
theorem c7_missing_schema_aborts_with_zero_writes (src tgt : String) (fs : FS) (arg : DsArg)
    (names : List String)
    (h0 : fs.schema = none)
    (h1 : resolveDsNames arg fs = Except.ok names) :
    (mainRun src tgt fs arg).2 = some "FileNotFoundError: schemas.json" ∧
    (mainRun src tgt fs arg).1.writes = [] := by
  have hne := resolveDsNames_ok_ne_nil arg fs names h1
  have hcf : ∀ d, convert_file src tgt fs d = Except.error "FileNotFoundError: schemas.json" := by
    intro d
    unfold convert_file read_schema
    rw [h0]
    rfl
  cases names with
  | nil => exact absurd rfl hne
  | cons d rest =>
    unfold mainRun
    rw [h1]
    simp [mainGo, hcf d]

def fsC7 : FS := ⟨[⟨"sales", "part-001", [["1"]]⟩], none⟩

/-- C7 witness: the theorem applied to a source tree with one partition file
and no schemas.json. -/
theorem c7_witness :
    (mainRun "/s" "/t" fsC7 DsArg.noArg).2 = some "FileNotFoundError: schemas.json" ∧
    (mainRun "/s" "/t" fsC7 DsArg.noArg).1.writes = [] :=
  c7_missing_schema_aborts_with_zero_writes "/s" "/t" fsC7 DsArg.noArg ["sales"] rfl (by decide)

def entsW : List ColEntry :=
  [⟨some "b", some 1⟩, ⟨some "a", some 0⟩, ⟨some "c", some 1⟩]

def schemaW : Schema := [("t", entsW)]

/-- C8: for a dataset present in the schema whose entries all carry both
column_position and column_name, get_column_names succeeds with the names of
the stably sorted entries; the result has one name per descriptor, the sorted
entries are non-decreasing in position, and entries with equal position keep
their relative schema order (the sorted list filtered at any position value
equals the original list filtered there). -/
theorem c8_column_resolution_sorted_and_stable (schema : Schema) (table : String)
    (entries : List ColEntry)
    (h1 : schema.lookup table = some entries)
    (h2 : ∀ e ∈ entries, e.column_position.isSome ∧ e.column_name.isSome) :
    get_column_names schema table =
      Except.ok ((sortByPos entries).map (fun e => e.column_name.getD "")) ∧
    ((sortByPos entries).map (fun e => e.column_name.getD "")).length = entries.length ∧
    (sortByPos entries).Pairwise (fun x y => posKey x ≤ posKey y) ∧
    ∀ k : Int, (sortByPos entries).filter (fun e => posKey e == k) =
      entries.filter (fun e => posKey e == k) := by
  have hpos : entries.all (fun e => e.column_position.isSome) = true := by
    rw [List.all_eq_true]
    intro e he
    exact (h2 e he).1
  have hname : (sortByPos entries).all (fun e => e.column_name.isSome) = true := by
    rw [List.all_eq_true]
    intro e he
    exact (h2 e ((mem_sortByPos e entries).mp he)).2
  refine ⟨?_, ?_, sorted_sortByPos entries, fun k => filter_sortByPos k entries⟩
  · simp only [get_column_names, h1, hpos, hname, if_pos]
  · rw [List.length_map, length_sortByPos]

/-- C8 witness: the theorem applied to a three-entry schema with a position
tie between the entries named b and c. -/
theorem c8_witness :
    get_column_names schemaW "t" =
      Except.ok ((sortByPos entsW).map (fun e => e.column_name.getD "")) ∧
    ((sortByPos entsW).map (fun e => e.column_name.getD "")).length = entsW.length :=
  ⟨(c8_column_resolution_sorted_and_stable schemaW "t" entsW rfl (by decide)).1,
   (c8_column_resolution_sorted_and_stable schemaW "t" entsW rfl (by decide)).2.1⟩

/-- C9: calling main with ds_name bound to a non-empty string makes the run
identical to a run over the list of the string's characters, each taken as a
one-character dataset name — Python's for loop iterates the string. -/
theorem c9_string_argument_iterates_characters (src tgt : String) (fs : FS) (s : String)
    (h : s ≠ "") :
    mainRun src tgt fs (DsArg.str s) =
      mainRun src tgt fs (DsArg.list (s.data.map (fun c => String.mk [c]))) := by
  have hd : s.data ≠ [] := by
    intro hnil
    apply h
    have hrep : s = String.mk s.data := rfl
    rw [hrep, hnil]
  have h1 : dsArgFalsy (DsArg.str s) = false := by
    simp only [dsArgFalsy]
    cases hb : s == "" with
    | false => rfl
    | true => exact absurd (by simpa using hb) h
  have h2 : dsArgFalsy (DsArg.list (s.data.map (fun c => String.mk [c]))) = false := by
    cases hm : s.data.map (fun c => String.mk [c]) with
    | nil => exact absurd (List.map_eq_nil_iff.mp hm) hd
    | cons a as => simp [dsArgFalsy, hm]
  unfold mainRun resolveDsNames
  rw [h1, h2]
  simp [dsArgIter]

def fsC9 : FS := ⟨[], none⟩

/-- C9 witness: the theorem applied to the two-character string "ab". -/
theorem c9_witness :
    mainRun "/s" "/t" fsC9 (DsArg.str "ab") =
      mainRun "/s" "/t" fsC9 (DsArg.list (("ab" : String).data.map (fun c => String.mk [c]))) :=
  c9_string_argument_iterates_characters "/s" "/t" fsC9 "ab" (by decide)

/-- C10: process_files returns a generator, so calling it builds only the
suspended computation; forcing it raises ValueError exactly when the match
set is empty, and on a non-empty match set yields exactly the matched paths
with no error. -/
theorem c10_process_files_defers_value_error (files : List String) :
    ((process_files files).force () = Except.error "ValueError" ↔ files = []) ∧
    (files ≠ [] → (process_files files).force () = Except.ok files) := by
  cases files with
  | nil => simp [process_files]
  | cons a as => simp [process_files]

/-- C10 witness: the theorem applied to a one-element match set. -/
theorem c10_witness :
    (["/src/sales/part-001"] : List String) ≠ [] ∧
    (process_files ["/src/sales/part-001"]).force () = Except.ok ["/src/sales/part-001"] :=
  ⟨by decide, (c10_process_files_defers_value_error ["/src/sales/part-001"]).2 (by decide)⟩

end FileConverter
